import Mathlib

/-!
# Book-Writing-Assistant — workflow controller, shallow embedding

A shallow embedding of the book-generation workflow controller of this
repository (the `App` component in `src/unnamed/part_001`, the data model in
`src/unnamed/part_000` / `types.ts`, and the generator-facing service layer in
`src/services/geminiService.ts`).

Modelling conventions:

* React `useState` fields become fields of one record, `AppModel`; a handler
  is a pure function from the pre-state (plus the outcomes of the external
  Content Generator calls it awaits) to the post-state.  State setters are
  taken to update the state immediately and in program order, which is the
  net effect once React flushes the queued updates of one handler run.
* The external Content Generator is a black box: each `await`ed call is an
  explicit `GenResult` argument (`ok` = the call returned and, where the
  source parses JSON, the body parsed; `err` = transport failure or the
  source's parse failure, carrying the surfaced message).
* `localStorage` under the single key `DRAFT_KEY` becomes the `draft : Option
  SavedState` field (the Draft Store slot); `localStorage.setItem` is the
  successful write (the storage-full branch is not modelled — no claim
  touches it), `removeItem` sets the slot to `none`.
* JavaScript sparse-array semantics: a hole in a chapter's page array reads
  back as `undefined`, which every consumer of this code base collapses to
  the empty string (`|| ''`) or skips (`p && p.trim() !== ''`); holes are
  therefore modelled as `""` pages (and missing chapters as `[]`), and the
  page grid is observed through `getPage` (the source's
  `content[c]?.[p] || ''`).
* JavaScript numbers used as indices are `Nat` in the state (they are
  non-negative in every state the source can produce); `handleNavigate`,
  whose intermediate values go negative, computes over `Int` exactly as the
  source does and converts back only after the source's `< 0` guard.
-/

/-- `AppState` from `types.ts` (src/unnamed/part_000 lines 1-6). -/
inductive AppState where
  | SETUP | OUTLINE | WRITING | FINAL
deriving DecidableEq, Repr

/-- `BookDetails` from `types.ts`.  The TS string-literal unions
(`genre`, `writingStyle`, `paragraphLength`, `language`) are plain strings
here; no controller logic branches on them. -/
structure BookDetails where
  theme : String
  genre : String
  audience : String
  writingStyle : String
  paragraphLength : String
  chapters : String
  penName : String
  numChapters : Nat
  numPagesPerChapter : Nat
  language : String
deriving DecidableEq, Repr

/-- `ChapterOutline` from `types.ts`. -/
structure ChapterOutline where
  title : String
  description : String
deriving DecidableEq, Repr

/-- `BookOutline` from `types.ts`. -/
structure BookOutline where
  titleOptions : List String
  summary : String
  chapters : List ChapterOutline
deriving DecidableEq, Repr

/-- `BookMatter` from `types.ts`: the eight named sections. -/
structure BookMatter where
  copyright : String
  dedication : String
  acknowledgments : String
  introduction : String
  conclusion : String
  appendix : String
  glossary : String
  authorBio : String
deriving DecidableEq, Repr

/-- The parsed body of a successful `generateFrontMatter` call
(src/services/geminiService.ts lines 340-382): the four front sections,
all required by the response schema. -/
structure FrontMatterData where
  copyright : String
  dedication : String
  acknowledgments : String
  introduction : String
deriving DecidableEq, Repr

/-- The parsed body of a successful `generateBackMatter` call
(src/services/geminiService.ts lines 384-434): the four back sections. -/
structure BackMatterData where
  conclusion : String
  appendix : String
  glossary : String
  authorBio : String
deriving DecidableEq, Repr

/-- `{ ...frontData, ...backData }` at src/unnamed/part_001 line 659/603:
the two halves have disjoint keys, so the spread populates all eight
`BookMatter` fields. -/
def mergeMatter (f : FrontMatterData) (b : BackMatterData) : BookMatter :=
  { copyright := f.copyright
    dedication := f.dedication
    acknowledgments := f.acknowledgments
    introduction := f.introduction
    conclusion := b.conclusion
    appendix := b.appendix
    glossary := b.glossary
    authorBio := b.authorBio }

/-- `Partial<BookMatter>` in the `reviseFullBook` response: each of the eight
sections is present (`some`) or absent (`none`). -/
structure MatterPatch where
  copyright : Option String
  dedication : Option String
  acknowledgments : Option String
  introduction : Option String
  conclusion : Option String
  appendix : Option String
  glossary : Option String
  authorBio : Option String
deriving DecidableEq, Repr

/-- The all-absent patch. -/
def MatterPatch.empty : MatterPatch :=
  ⟨none, none, none, none, none, none, none, none⟩

/-- `{ ...bookMatter, ...revisedMatter }` (src/unnamed/part_001 line 730):
fields present in the patch overwrite, absent fields keep the prior value. -/
def applyMatterPatch (m : BookMatter) (p : MatterPatch) : BookMatter :=
  { copyright := p.copyright.getD m.copyright
    dedication := p.dedication.getD m.dedication
    acknowledgments := p.acknowledgments.getD m.acknowledgments
    introduction := p.introduction.getD m.introduction
    conclusion := p.conclusion.getD m.conclusion
    appendix := p.appendix.getD m.appendix
    glossary := p.glossary.getD m.glossary
    authorBio := p.authorBio.getD m.authorBio }

/-- One entry of `revisedContent` in the `reviseFullBook` response. -/
structure ContentChange where
  chapterIndex : Nat
  pageIndex : Nat
  newPageContent : String
deriving DecidableEq, Repr

/-- Outcome of one awaited Content Generator call: the parsed success value,
or the failure (transport error or parse failure) with the message the
source surfaces via `handleError`. -/
inductive GenResult (α : Type) where
  | ok (val : α)
  | err (msg : String)
deriving DecidableEq, Repr

/-- The `SavedState` snapshot shape (src/unnamed/part_001 lines 426-437).
The two view-cursor fields are `Option` because `handleLoadDraft` reads them
with `??` (lines 512-513): older snapshots may lack them. -/
structure SavedState where
  appState : AppState
  bookDetails : BookDetails
  bookOutline : BookOutline
  bookContent : List (List String)
  bookMatter : Option BookMatter
  currentPageContent : String
  currentChapterIndex : Nat
  currentPageIndex : Nat
  viewedChapterIndex : Option Nat
  viewedPageIndex : Option Nat
deriving DecidableEq, Repr

/-- The `App` component's state (src/unnamed/part_001 lines 440-459), plus
the Draft Store slot (`localStorage[DRAFT_KEY]`). -/
structure AppModel where
  appState : AppState
  bookDetails : Option BookDetails
  bookOutline : Option BookOutline
  bookContent : List (List String)
  bookMatter : Option BookMatter
  currentPageContent : String
  currentChapterIndex : Nat
  currentPageIndex : Nat
  viewedChapterIndex : Nat
  viewedPageIndex : Nat
  isLoading : Bool
  error : Option String
  hasDraft : Bool
  draft : Option SavedState
deriving DecidableEq, Repr

/-- Read page `(c, p)` of the grid: the source's `bookContent[c]?.[p] || ''`
(missing chapter, missing page, or hole all read as `""`). -/
def getPage (content : List (List String)) (c p : Nat) : String :=
  (content.getD c []).getD p ""

/-- JS array assignment `pages[p] = text`: replaces in range, extends with
holes (modelled `""`) past the end. -/
def setPagePad : List String → Nat → String → List String
  | [], 0, text => [text]
  | [], p + 1, text => "" :: setPagePad [] p text
  | _ :: rest, 0, text => text :: rest
  | page :: rest, p + 1, text => page :: setPagePad rest p text

/-- The page-commit idiom of `handleApproveAndContinue` / `handleRevisePage`
(src/unnamed/part_001 lines 639-643, 621-625):
`newContent = content.map(ch => [...ch]); if (!newContent[c]) newContent[c] = [];
newContent[c][p] = text` — missing outer entries become `[]`. -/
def commitPage : List (List String) → Nat → Nat → String → List (List String)
  | [], 0, p, text => [setPagePad [] p text]
  | [], c + 1, p, text => [] :: commitPage [] c p text
  | chapter :: rest, 0, p, text => setPagePad chapter p text :: rest
  | chapter :: rest, c + 1, p, text => chapter :: commitPage rest c p text

/-- One `revisedContent.forEach` body of `handleFinalRevision`
(src/unnamed/part_001 lines 735-739): the write is guarded by
`if (newContent[change.chapterIndex])` — a chapter index beyond the grid is
ignored (no outer extension here, unlike `commitPage`). -/
def applyContentChange (content : List (List String)) (ch : ContentChange) :
    List (List String) :=
  if ch.chapterIndex < content.length then
    content.set ch.chapterIndex
      (setPagePad (content.getD ch.chapterIndex []) ch.pageIndex ch.newPageContent)
  else content

/-- The cursor-advance computation of `handleApproveAndContinue`
(src/unnamed/part_001 lines 646-652): page-minor increment wrapping the
chapter boundary. -/
def nextPos (details : BookDetails) (c p : Nat) : Nat × Nat :=
  if p + 1 ≥ details.numPagesPerChapter then (c + 1, 0) else (c, p + 1)

/-! ## Service layer (src/services/geminiService.ts)

The service functions call the generator and `JSON.parse` the body with an
unchecked TypeScript cast — no field of the parsed value is validated.  A
call is therefore modelled by its parsed body: `some o` when the transport
succeeded and the body parsed as an outline, `none` otherwise. -/

/-- `generateOutline` (geminiService.ts lines 61-107): returns the parsed
response verbatim, or the fixed parse-failure message.  No validation of the
chapter count against `details.numChapters` is performed. -/
def generateOutline (_details : BookDetails) (parsedResponse : Option BookOutline) :
    GenResult BookOutline :=
  match parsedResponse with
  | some o => .ok o
  | none => .err "The AI returned an invalid outline format. Please try again."

/-- `reviseOutline` (geminiService.ts lines 109-163): identical result
structure — the parsed response is returned verbatim, unvalidated; the
original outline and feedback only shape the prompt. -/
def reviseOutline (_details : BookDetails) (_originalOutline : BookOutline)
    (_feedback : String) (parsedResponse : Option BookOutline) : GenResult BookOutline :=
  match parsedResponse with
  | some o => .ok o
  | none => .err "The AI returned an invalid revised outline format. Please try again."

/-! ## Workflow controller handlers (src/unnamed/part_001, `App`) -/

/-- `handleError` (lines 472-475). -/
def handleError (msg : String) (s : AppModel) : AppModel :=
  { s with error := some msg, isLoading := false }

/-- The snapshot `handleSaveDraft` serializes (lines 480-491): every entity,
the page buffer, and both cursor pairs (view cursor stored as present). -/
def snapshotOf (s : AppModel) (details : BookDetails) (outline : BookOutline) :
    SavedState :=
  { appState := s.appState
    bookDetails := details
    bookOutline := outline
    bookContent := s.bookContent
    bookMatter := s.bookMatter
    currentPageContent := s.currentPageContent
    currentChapterIndex := s.currentChapterIndex
    currentPageIndex := s.currentPageIndex
    viewedChapterIndex := some s.viewedChapterIndex
    viewedPageIndex := some s.viewedPageIndex }

/-- `handleSaveDraft` (lines 477-497): a no-op unless both `bookDetails` and
`bookOutline` are non-null; otherwise overwrites the Draft Store slot with
the full snapshot.  (The storage-full catch branch is not modelled.) -/
def handleSaveDraft (s : AppModel) : AppModel :=
  match s.bookDetails, s.bookOutline with
  | some details, some outline => { s with draft := some (snapshotOf s details outline) }
  | _, _ => s

/-- `handleLoadDraft` (lines 499-522): restores every field from the stored
snapshot; the view cursor defaults to the write cursor via `??` when absent.
The slot itself is left in place; only `hasDraft` is cleared.  (The corrupt-
draft catch branch is not modelled: the slot holds typed snapshots.) -/
def handleLoadDraft (s : AppModel) : AppModel :=
  match s.draft with
  | none => s
  | some st =>
      { s with
        appState := st.appState
        bookDetails := some st.bookDetails
        bookOutline := some st.bookOutline
        bookContent := st.bookContent
        bookMatter := st.bookMatter
        currentPageContent := st.currentPageContent
        currentChapterIndex := st.currentChapterIndex
        currentPageIndex := st.currentPageIndex
        viewedChapterIndex := st.viewedChapterIndex.getD st.currentChapterIndex
        viewedPageIndex := st.viewedPageIndex.getD st.currentPageIndex
        hasDraft := false }

/-- `handleStartOutlineGeneration` (lines 524-540).  Note the order in the
source: `localStorage.removeItem(DRAFT_KEY)` (line 528, "Starting fresh")
runs BEFORE the awaited `generateOutline` call, so the Draft Store slot is
cleared whether the call succeeds or fails. -/
def handleStartOutlineGeneration (details : BookDetails)
    (outlineOutcome : GenResult BookOutline) (s : AppModel) : AppModel :=
  match outlineOutcome with
  | .ok outline =>
      { s with
        error := none, draft := none, hasDraft := false
        bookDetails := some details, bookOutline := some outline
        appState := .OUTLINE, isLoading := false }
  | .err msg =>
      { s with
        error := some msg, draft := none, hasDraft := false, isLoading := false }

/-- `handleReviseOutline` (lines 542-555): replaces the outline atomically on
success, surfaces the error otherwise. -/
def handleReviseOutline (outlineOutcome : GenResult BookOutline) (s : AppModel) :
    AppModel :=
  match s.bookDetails, s.bookOutline with
  | some _, some _ =>
      match outlineOutcome with
      | .ok o => { s with bookOutline := some o, error := none, isLoading := false }
      | .err msg => { s with error := some msg, isLoading := false }
  | _, _ => s

/-- `handleStartWriting` (lines 557-576): generates page (0,0) into the
uncommitted buffer, pre-sizes the grid to `numChapters` empty chapters, sets
both cursors to (0,0) and enters the Writing phase; on failure nothing but
the error changes. -/
def handleStartWriting (writeOutcome : GenResult String) (s : AppModel) : AppModel :=
  match s.bookDetails, s.bookOutline with
  | some details, some _ =>
      match writeOutcome with
      | .ok content =>
          { s with
            currentPageContent := content
            currentChapterIndex := 0, currentPageIndex := 0
            viewedChapterIndex := 0, viewedPageIndex := 0
            bookContent := List.replicate details.numChapters []
            appState := .WRITING, error := none, isLoading := false }
      | .err msg => { s with error := some msg, isLoading := false }
  | _, _ => s

/-- `handleApproveAndContinue` (lines 636-683).  Faithful branch structure:

* the buffered page is committed into the grid (lines 639-644) BEFORE any
  generator call, unconditionally — there is no view-cursor guard in the
  controller (the UI alone disables the button when not viewing the latest
  page, `WritingView` line 373);
* past the last page of the last chapter (lines 654-664): front and back
  matter are generated, merged, the phase becomes Final and a snapshot is
  saved — these two awaits are OUTSIDE any try/catch, so a failure escapes
  the handler with `isLoading` stuck true and no further mutation;
* otherwise `writePage` runs inside try/catch (lines 666-682): on success
  buffer and both cursors move to the next position; on failure only the
  error is set — the page committed at the start is NOT rolled back and the
  cursors stay. -/
def handleApproveAndContinue (writeOutcome : GenResult String)
    (frontOutcome : GenResult FrontMatterData) (backOutcome : GenResult BackMatterData)
    (s : AppModel) : AppModel :=
  match s.bookDetails, s.bookOutline with
  | some details, some _ =>
      if (nextPos details s.currentChapterIndex s.currentPageIndex).1 ≥
          details.numChapters then
        match frontOutcome, backOutcome with
        | .ok f, .ok b =>
            handleSaveDraft
              { s with
                bookContent :=
                  commitPage s.bookContent s.currentChapterIndex s.currentPageIndex
                    s.currentPageContent
                bookMatter := some (mergeMatter f b)
                isLoading := false, appState := .FINAL }
        | _, _ =>
            { s with
              bookContent :=
                commitPage s.bookContent s.currentChapterIndex s.currentPageIndex
                  s.currentPageContent
              isLoading := true }
      else
        match writeOutcome with
        | .ok content =>
            { s with
              bookContent :=
                commitPage s.bookContent s.currentChapterIndex s.currentPageIndex
                  s.currentPageContent
              currentPageContent := content
              currentChapterIndex := (nextPos details s.currentChapterIndex s.currentPageIndex).1
              currentPageIndex := (nextPos details s.currentChapterIndex s.currentPageIndex).2
              viewedChapterIndex := (nextPos details s.currentChapterIndex s.currentPageIndex).1
              viewedPageIndex := (nextPos details s.currentChapterIndex s.currentPageIndex).2
              error := none, isLoading := false }
        | .err msg =>
            { s with
              bookContent :=
                commitPage s.bookContent s.currentChapterIndex s.currentPageIndex
                  s.currentPageContent
              error := some msg, isLoading := false }
  | _, _ => s

/-- `handleRevisePage` (lines 614-634): guarded by a non-empty buffer
(`!currentPageContent` — the empty string is falsy); writes the revision at
the VIEW cursor and into the buffer. -/
def handleRevisePage (reviseOutcome : GenResult String) (s : AppModel) : AppModel :=
  match s.bookDetails with
  | none => s
  | some _ =>
      if s.currentPageContent = "" then s
      else
        match reviseOutcome with
        | .ok revised =>
            { s with
              bookContent :=
                commitPage s.bookContent s.viewedChapterIndex s.viewedPageIndex revised
              currentPageContent := revised
              error := none, isLoading := false }
        | .err msg => { s with error := some msg, isLoading := false }

/-- Navigation direction of `handleNavigate`. -/
inductive NavDirection where
  | prev | next
deriving DecidableEq, Repr

/-- The target view position computed by `handleNavigate` (lines 688-703),
before the clamp: one page forward or back in chapter-major/page-minor
order, over `Int` exactly as the source's arithmetic. -/
def navTarget (direction : NavDirection) (details : BookDetails) (vc vp : Nat) :
    Int × Int :=
  match direction with
  | .next =>
      if (vp : Int) + 1 ≥ (details.numPagesPerChapter : Int) then ((vc : Int) + 1, 0)
      else ((vc : Int), (vp : Int) + 1)
  | .prev =>
      if (vp : Int) - 1 < 0 then ((vc : Int) - 1, (details.numPagesPerChapter : Int) - 1)
      else ((vc : Int), (vp : Int) - 1)

/-- `handleNavigate` (lines 685-713): moves the view cursor one page in
chapter-major/page-minor order; the move is dropped (early return, lines
705-708) when it would pass the write cursor or retreat before chapter 0.
The conversion back to `Nat` happens after the source's `< 0` guard. -/
def handleNavigate (direction : NavDirection) (s : AppModel) : AppModel :=
  match s.bookDetails with
  | none => s
  | some details =>
      if (navTarget direction details s.viewedChapterIndex s.viewedPageIndex).1 >
            (s.currentChapterIndex : Int) ∨
          ((navTarget direction details s.viewedChapterIndex s.viewedPageIndex).1 =
              (s.currentChapterIndex : Int) ∧
            (navTarget direction details s.viewedChapterIndex s.viewedPageIndex).2 >
              (s.currentPageIndex : Int)) ∨
          (navTarget direction details s.viewedChapterIndex s.viewedPageIndex).1 < 0 then s
      else
        { s with
          viewedChapterIndex :=
            (navTarget direction details s.viewedChapterIndex s.viewedPageIndex).1.toNat
          viewedPageIndex :=
            (navTarget direction details s.viewedChapterIndex s.viewedPageIndex).2.toNat
          currentPageContent :=
            getPage s.bookContent
              (navTarget direction details s.viewedChapterIndex s.viewedPageIndex).1.toNat
              (navTarget direction details s.viewedChapterIndex s.viewedPageIndex).2.toNat }

/-- `handleFinalRevision` (lines 715-748): field-wise matter overwrite, then
positional content overwrites; no phase transition. -/
def handleFinalRevision (outcome : GenResult (MatterPatch × List ContentChange))
    (s : AppModel) : AppModel :=
  match s.bookDetails, s.bookOutline, s.bookMatter with
  | some _, some _, some matter =>
      match outcome with
      | .ok (revisedMatter, revisedContent) =>
          { s with
            bookMatter := some (applyMatterPatch matter revisedMatter)
            bookContent := revisedContent.foldl applyContentChange s.bookContent
            error := none, isLoading := false }
      | .err msg => { s with error := some msg, isLoading := false }
  | _, _, _ => s

/-- `handleStartOver` (lines 775-789): clears the Draft Store slot and resets
every entity; `isLoading` is not touched by the source. -/
def handleStartOver (s : AppModel) : AppModel :=
  { appState := .SETUP
    bookDetails := none
    bookOutline := none
    bookContent := []
    bookMatter := none
    currentPageContent := ""
    currentChapterIndex := 0, currentPageIndex := 0
    viewedChapterIndex := 0, viewedPageIndex := 0
    isLoading := s.isLoading
    error := none
    hasDraft := false
    draft := none }

/-- Run `f 0, f 1, ..., f (n-1)` collecting the results, stopping at the
first failure (the failure of the least index is returned). -/
def genList {α : Type} (f : Nat → GenResult α) : Nat → GenResult (List α)
  | 0 => .ok []
  | n + 1 =>
      match genList f n with
      | .err msg => .err msg
      | .ok xs =>
          match f n with
          | .err msg => .err msg
          | .ok x => .ok (xs ++ [x])

/-- The nested page loop of `handleStartAutomaticWriting` (lines 590-597):
every page of every chapter in chapter-major/page-minor order, aborting at
the first failing call. -/
def autoWriteContent (pageGen : Nat → Nat → GenResult String) (nc ppc : Nat) :
    GenResult (List (List String)) :=
  genList (fun c => genList (fun p => pageGen c p) ppc) nc

/-- `handleStartAutomaticWriting` (lines 578-612): front matter, then all
pages accumulated in the local `allContent`, then `setBookContent` (line
599) — which runs BEFORE the back-matter call — then back matter, matter
merge, transition to Final and one snapshot save.  Any failure jumps to the
catch: state set so far survives (only `setBookContent` precedes an await,
the rest happens after the last one). -/
def handleStartAutomaticWriting (frontOutcome : GenResult FrontMatterData)
    (pageGen : Nat → Nat → GenResult String) (backOutcome : GenResult BackMatterData)
    (s : AppModel) : AppModel :=
  match s.bookDetails, s.bookOutline with
  | some details, some _ =>
      match frontOutcome with
      | .err msg => { s with error := some msg, isLoading := false }
      | .ok front =>
          match autoWriteContent pageGen details.numChapters details.numPagesPerChapter with
          | .err msg => { s with error := some msg, isLoading := false }
          | .ok allContent =>
              match backOutcome with
              | .err msg =>
                  { s with bookContent := allContent, error := some msg, isLoading := false }
              | .ok back =>
                  handleSaveDraft
                    { s with
                      bookContent := allContent
                      bookMatter := some (mergeMatter front back)
                      appState := .FINAL
                      error := none, isLoading := false }
  | _, _ => s

/-! ## The dual-cursor ordering invariant (spec P2) -/

/-- The view cursor is at or before the write cursor, chapter-major then
page-minor. -/
def viewLeWrite (s : AppModel) : Prop :=
  s.viewedChapterIndex < s.currentChapterIndex ∨
    (s.viewedChapterIndex = s.currentChapterIndex ∧
      s.viewedPageIndex ≤ s.currentPageIndex)

/-- The same ordering for a stored snapshot, read the way `handleLoadDraft`
reads it (view fields defaulted to the write cursor when absent). -/
def snapViewLe (st : SavedState) : Prop :=
  st.viewedChapterIndex.getD st.currentChapterIndex < st.currentChapterIndex ∨
    (st.viewedChapterIndex.getD st.currentChapterIndex = st.currentChapterIndex ∧
      st.viewedPageIndex.getD st.currentPageIndex ≤ st.currentPageIndex)

/-- Every snapshot in the Draft Store slot satisfies the ordering. -/
def draftInv (o : Option SavedState) : Prop :=
  ∀ st, o = some st → snapViewLe st

/-- The inductive invariant: the live cursors are ordered and so is any
stored snapshot (so that `handleLoadDraft` restores ordered cursors). -/
def cursorInv (s : AppModel) : Prop :=
  viewLeWrite s ∧ draftInv s.draft

/-- One controller operation: each constructor is one `App` handler applied
to arbitrary generator outcomes. -/
inductive WStep : AppModel → AppModel → Prop where
  | navigate (direction : NavDirection) (s : AppModel) :
      WStep s (handleNavigate direction s)
  | approve (w : GenResult String) (f : GenResult FrontMatterData)
      (b : GenResult BackMatterData) (s : AppModel) :
      WStep s (handleApproveAndContinue w f b s)
  | revisePage (r : GenResult String) (s : AppModel) :
      WStep s (handleRevisePage r s)
  | saveDraft (s : AppModel) : WStep s (handleSaveDraft s)
  | loadDraft (s : AppModel) : WStep s (handleLoadDraft s)
  | startOver (s : AppModel) : WStep s (handleStartOver s)
  | finalRevision (o : GenResult (MatterPatch × List ContentChange)) (s : AppModel) :
      WStep s (handleFinalRevision o s)
  | autoWrite (f : GenResult FrontMatterData) (pg : Nat → Nat → GenResult String)
      (b : GenResult BackMatterData) (s : AppModel) :
      WStep s (handleStartAutomaticWriting f pg b s)
  | reviseOutline (o : GenResult BookOutline) (s : AppModel) :
      WStep s (handleReviseOutline o s)
  | outlineGeneration (d : BookDetails) (o : GenResult BookOutline) (s : AppModel) :
      WStep s (handleStartOutlineGeneration d o s)
  | startWriting (w : GenResult String) (s : AppModel) :
      WStep s (handleStartWriting w s)

/-- Reflexive-transitive closure of `WStep` from a given state. -/
inductive WReachable (s0 : AppModel) : AppModel → Prop where
  | refl : WReachable s0 s0
  | step {s s' : AppModel} : WReachable s0 s → WStep s s' → WReachable s0 s'


/-! ## Concrete fixtures for witnesses and counterexamples -/

/-- A 2-chapter, 2-pages-per-chapter configuration. -/
def d22 : BookDetails :=
  { theme := "t", genre := "non-fiction", audience := "a", writingStyle := "hybrid"
    paragraphLength := "standard", chapters := "", penName := "pen"
    numChapters := 2, numPagesPerChapter := 2, language := "english" }

/-- A 1-chapter, 1-page configuration. -/
def d11 : BookDetails := { d22 with numChapters := 1, numPagesPerChapter := 1 }

/-- A two-chapter outline matching `d22`. -/
def o22 : BookOutline :=
  { titleOptions := ["T"], summary := "s"
    chapters := [{ title := "C1", description := "x1" }, { title := "C2", description := "x2" }] }

/-- A one-chapter outline (also the shape of an under-length generator
response). -/
def o1 : BookOutline :=
  { titleOptions := ["T"], summary := "s", chapters := [{ title := "C1", description := "x1" }] }

/-- A Writing-phase state right after `handleStartWriting` succeeded under
`d22`/`o22`: both cursors at (0,0), grid pre-sized and empty, page (0,0)
buffered uncommitted. -/
def baseModel : AppModel :=
  { appState := .WRITING, bookDetails := some d22, bookOutline := some o22
    bookContent := [[], []], bookMatter := none, currentPageContent := "p00"
    currentChapterIndex := 0, currentPageIndex := 0
    viewedChapterIndex := 0, viewedPageIndex := 0
    isLoading := false, error := none, hasDraft := false, draft := none }

/-- A Writing-phase state where page (0,0) is committed, the write cursor is
at (0,1), and the user has navigated back to view (0,0) (so the buffer holds
the viewed page's text, as `handleNavigate` line 712 sets it). -/
def behindModel : AppModel :=
  { baseModel with bookContent := [["p00"], []], currentPageIndex := 1 }

/-- A persisted Writing-phase snapshot. -/
def snap0 : SavedState :=
  { appState := .WRITING, bookDetails := d22, bookOutline := o22
    bookContent := [["p00"], []], bookMatter := none, currentPageContent := "p00"
    currentChapterIndex := 0, currentPageIndex := 1
    viewedChapterIndex := some 0, viewedPageIndex := some 1 }

/-- A Setup-phase state with a previously persisted draft in the store. -/
def setupModel : AppModel :=
  { appState := .SETUP, bookDetails := none, bookOutline := none
    bookContent := [], bookMatter := none, currentPageContent := ""
    currentChapterIndex := 0, currentPageIndex := 0
    viewedChapterIndex := 0, viewedPageIndex := 0
    isLoading := false, error := none, hasDraft := true, draft := some snap0 }

/-- An Outline-phase state under the 1×1 configuration. -/
def outlineModel1 : AppModel :=
  { appState := .OUTLINE, bookDetails := some d11, bookOutline := some o1
    bookContent := [], bookMatter := none, currentPageContent := ""
    currentChapterIndex := 0, currentPageIndex := 0
    viewedChapterIndex := 0, viewedPageIndex := 0
    isLoading := false, error := none, hasDraft := false, draft := none }

/-- The view cursor is strictly behind the write cursor. -/
def viewBehindWrite (s : AppModel) : Prop :=
  s.viewedChapterIndex < s.currentChapterIndex ∨
    (s.viewedChapterIndex = s.currentChapterIndex ∧
      s.viewedPageIndex < s.currentPageIndex)

/-- A revision patch touching only the conclusion section. -/
def conclusionOnlyPatch (x : String) : MatterPatch :=
  { MatterPatch.empty with conclusion := some x }

/-- A concrete front-matter response. -/
def fm0 : FrontMatterData :=
  { copyright := "fm-c", dedication := "fm-d", acknowledgments := "fm-a"
    introduction := "fm-i" }

/-- A concrete back-matter response. -/
def bm0 : BackMatterData :=
  { conclusion := "bm-co", appendix := "bm-ap", glossary := "bm-g"
    authorBio := "bm-bio" }

/-- A fully populated BookMatter. -/
def m0 : BookMatter :=
  { copyright := "c", dedication := "d", acknowledgments := "a", introduction := "i"
    conclusion := "co", appendix := "ap", glossary := "g", authorBio := "bio" }

/-- A Writing-phase state under `d22`/`o22` with the write cursor at the last
page of the last chapter (1,1), that page buffered uncommitted. -/
def lastPageModel : AppModel :=
  { baseModel with
    bookContent := [["p00", "p01"], ["p10"]]
    currentPageContent := "p11"
    currentChapterIndex := 1, currentPageIndex := 1
    viewedChapterIndex := 1, viewedPageIndex := 1 }

/-- A Final-phase state under `d22`/`o22` with a full 2×2 grid and matter. -/
def finalModel : AppModel :=
  { baseModel with
    appState := .FINAL
    bookContent := [["p00", "p01"], ["p10", "p11"]]
    bookMatter := some m0
    currentPageContent := "p11"
    currentChapterIndex := 1, currentPageIndex := 1
    viewedChapterIndex := 1, viewedPageIndex := 1 }

/-! ## Helper lemmas about the page grid -/

theorem getD_setPagePad_self (pages : List String) (p : Nat) (text : String) :
    (setPagePad pages p text).getD p "" = text := by
  induction p generalizing pages with
  | zero => cases pages <;> rfl
  | succ p ih =>
      cases pages with
      | nil =>
          show ("" :: setPagePad [] p text).getD (p + 1) "" = text
          rw [List.getD_cons_succ]
          exact ih []
      | cons page rest =>
          show (page :: setPagePad rest p text).getD (p + 1) "" = text
          rw [List.getD_cons_succ]
          exact ih rest

theorem getD_setPagePad_ne (pages : List String) (p : Nat) (text : String)
    (q : Nat) (h : q ≠ p) :
    (setPagePad pages p text).getD q "" = pages.getD q "" := by
  induction p generalizing pages q with
  | zero =>
      cases pages <;> cases q <;> first | exact absurd rfl h | rfl
  | succ p ih =>
      cases pages with
      | nil =>
          cases q with
          | zero => rfl
          | succ q =>
              have hqp : q ≠ p := fun hq => h (by omega)
              show ("" :: setPagePad [] p text).getD (q + 1) "" = List.getD [] (q + 1) ""
              rw [List.getD_cons_succ, ih [] q hqp, List.getD_nil, List.getD_nil]
      | cons page rest =>
          cases q with
          | zero => rfl
          | succ q =>
              have hqp : q ≠ p := fun hq => h (by omega)
              show (page :: setPagePad rest p text).getD (q + 1) "" =
                (page :: rest).getD (q + 1) ""
              rw [List.getD_cons_succ, List.getD_cons_succ, ih rest q hqp]

theorem getD_commitPage_self (content : List (List String)) (c p : Nat) (text : String) :
    (commitPage content c p text).getD c [] = setPagePad (content.getD c []) p text := by
  induction c generalizing content with
  | zero => cases content <;> rfl
  | succ c ih =>
      cases content with
      | nil =>
          show ([] :: commitPage [] c p text).getD (c + 1) [] =
            setPagePad (List.getD [] (c + 1) []) p text
          rw [List.getD_cons_succ, ih [], List.getD_nil, List.getD_nil]
      | cons chapter rest =>
          show (chapter :: commitPage rest c p text).getD (c + 1) [] =
            setPagePad ((chapter :: rest).getD (c + 1) []) p text
          rw [List.getD_cons_succ, List.getD_cons_succ, ih rest]

theorem getD_commitPage_ne (content : List (List String)) (c p : Nat) (text : String)
    (q : Nat) (h : q ≠ c) :
    (commitPage content c p text).getD q [] = content.getD q [] := by
  induction c generalizing content q with
  | zero =>
      cases content <;> cases q <;> first | exact absurd rfl h | rfl
  | succ c ih =>
      cases content with
      | nil =>
          cases q with
          | zero => rfl
          | succ q =>
              have hqc : q ≠ c := fun hq => h (by omega)
              show ([] :: commitPage [] c p text).getD (q + 1) [] =
                List.getD [] (q + 1) []
              rw [List.getD_cons_succ, ih [] q hqc, List.getD_nil, List.getD_nil]
      | cons chapter rest =>
          cases q with
          | zero => rfl
          | succ q =>
              have hqc : q ≠ c := fun hq => h (by omega)
              show (chapter :: commitPage rest c p text).getD (q + 1) [] =
                (chapter :: rest).getD (q + 1) []
              rw [List.getD_cons_succ, List.getD_cons_succ, ih rest q hqc]

/-- The committed page reads back. -/
theorem getPage_commitPage_self (content : List (List String)) (c p : Nat) (text : String) :
    getPage (commitPage content c p text) c p = text := by
  unfold getPage
  rw [getD_commitPage_self, getD_setPagePad_self]

/-- A commit changes no other position of the grid. -/
theorem getPage_commitPage_ne (content : List (List String)) (c p : Nat) (text : String)
    (q r : Nat) (h : ¬(q = c ∧ r = p)) :
    getPage (commitPage content c p text) q r = getPage content q r := by
  by_cases hq : q = c
  · subst hq
    have hr : r ≠ p := fun hr => h ⟨rfl, hr⟩
    unfold getPage
    rw [getD_commitPage_self, getD_setPagePad_ne _ _ _ _ hr]
  · unfold getPage
    rw [getD_commitPage_ne _ _ _ _ _ hq]

theorem getD_listSet_self {α : Type} (l : List α) (i : Nat) (x : α) (d : α)
    (h : i < l.length) : (l.set i x).getD i d = x := by
  induction l generalizing i with
  | nil => simp at h
  | cons a rest ih =>
      cases i with
      | zero => simp
      | succ i => simpa using ih i (by simpa using h)

theorem getD_listSet_ne {α : Type} (l : List α) (i : Nat) (x : α) (d : α)
    (j : Nat) (h : j ≠ i) : (l.set i x).getD j d = l.getD j d := by
  induction l generalizing i j with
  | nil => simp
  | cons a rest ih =>
      cases i with
      | zero =>
          cases j with
          | zero => exact absurd rfl h
          | succ j => simp
      | succ i =>
          cases j with
          | zero => simp
          | succ j =>
              have : j ≠ i := fun hj => h (by omega)
              simpa using ih i j this

/-- A content patch with an in-range chapter index writes its page. -/
theorem getPage_applyContentChange_self (content : List (List String))
    (ch : ContentChange) (h : ch.chapterIndex < content.length) :
    getPage (applyContentChange content ch) ch.chapterIndex ch.pageIndex =
      ch.newPageContent := by
  unfold applyContentChange
  rw [if_pos h]
  unfold getPage
  rw [getD_listSet_self _ _ _ _ h, getD_setPagePad_self]

/-- A content patch changes no other position of the grid. -/
theorem getPage_applyContentChange_ne (content : List (List String))
    (ch : ContentChange) (q r : Nat) (h : ¬(q = ch.chapterIndex ∧ r = ch.pageIndex)) :
    getPage (applyContentChange content ch) q r = getPage content q r := by
  unfold applyContentChange
  by_cases hin : ch.chapterIndex < content.length
  · rw [if_pos hin]
    by_cases hq : q = ch.chapterIndex
    · subst hq
      have hr : r ≠ ch.pageIndex := fun hr => h ⟨rfl, hr⟩
      unfold getPage
      rw [getD_listSet_self _ _ _ _ hin, getD_setPagePad_ne _ _ _ _ hr]
    · unfold getPage
      rw [getD_listSet_ne _ _ _ _ _ hq]
  · rw [if_neg hin]

/-! ## Invariant preservation lemmas -/

theorem cursorInv_handleSaveDraft (s : AppModel) (h : cursorInv s) :
    cursorInv (handleSaveDraft s) := by
  unfold handleSaveDraft
  split
  · rename_i details outline _ _
    refine ⟨h.1, ?_⟩
    intro st hst
    injection hst with hst
    subst hst
    unfold snapViewLe snapshotOf
    simpa using h.1
  · exact h

theorem cursorInv_handleNavigate (direction : NavDirection) (s : AppModel)
    (h : cursorInv s) : cursorInv (handleNavigate direction s) := by
  unfold handleNavigate
  split
  · exact h
  · rename_i details _
    split
    · exact h
    · rename_i hcond
      push_neg at hcond
      refine ⟨?_, h.2⟩
      unfold viewLeWrite
      simp only
      omega

theorem cursorInv_handleApproveAndContinue (w : GenResult String)
    (f : GenResult FrontMatterData) (b : GenResult BackMatterData) (s : AppModel)
    (h : cursorInv s) : cursorInv (handleApproveAndContinue w f b s) := by
  unfold handleApproveAndContinue
  split
  · split
    · split
      · exact cursorInv_handleSaveDraft _ ⟨h.1, h.2⟩
      · exact ⟨h.1, h.2⟩
    · split
      · exact ⟨Or.inr ⟨rfl, le_refl _⟩, h.2⟩
      · exact ⟨h.1, h.2⟩
  · exact h

theorem cursorInv_handleRevisePage (r : GenResult String) (s : AppModel)
    (h : cursorInv s) : cursorInv (handleRevisePage r s) := by
  unfold handleRevisePage
  split
  · exact h
  · split
    · exact h
    · split
      · exact ⟨h.1, h.2⟩
      · exact ⟨h.1, h.2⟩

theorem cursorInv_handleLoadDraft (s : AppModel) (h : cursorInv s) :
    cursorInv (handleLoadDraft s) := by
  unfold handleLoadDraft
  split
  · exact h
  · rename_i st hst
    have hsnap := h.2 st hst
    refine ⟨?_, ?_⟩
    · unfold viewLeWrite
      simp only
      exact hsnap
    · intro st2 hst2
      exact h.2 st2 hst2

theorem cursorInv_handleStartOver (s : AppModel) :
    cursorInv (handleStartOver s) := by
  refine ⟨Or.inr ⟨rfl, le_refl _⟩, ?_⟩
  intro st hst
  simp [handleStartOver] at hst

theorem cursorInv_handleFinalRevision (o : GenResult (MatterPatch × List ContentChange))
    (s : AppModel) (h : cursorInv s) : cursorInv (handleFinalRevision o s) := by
  unfold handleFinalRevision
  split
  · split
    · exact ⟨h.1, h.2⟩
    · exact ⟨h.1, h.2⟩
  · exact h

theorem cursorInv_handleStartAutomaticWriting (f : GenResult FrontMatterData)
    (pg : Nat → Nat → GenResult String) (b : GenResult BackMatterData) (s : AppModel)
    (h : cursorInv s) : cursorInv (handleStartAutomaticWriting f pg b s) := by
  unfold handleStartAutomaticWriting
  split
  · split
    · exact ⟨h.1, h.2⟩
    · split
      · exact ⟨h.1, h.2⟩
      · split
        · exact ⟨h.1, h.2⟩
        · exact cursorInv_handleSaveDraft _ ⟨h.1, h.2⟩
  · exact h

theorem cursorInv_handleReviseOutline (o : GenResult BookOutline) (s : AppModel)
    (h : cursorInv s) : cursorInv (handleReviseOutline o s) := by
  unfold handleReviseOutline
  split
  · split
    · exact ⟨h.1, h.2⟩
    · exact ⟨h.1, h.2⟩
  · exact h

theorem cursorInv_handleStartOutlineGeneration (d : BookDetails)
    (o : GenResult BookOutline) (s : AppModel) (h : cursorInv s) :
    cursorInv (handleStartOutlineGeneration d o s) := by
  unfold handleStartOutlineGeneration
  split
  · refine ⟨h.1, ?_⟩
    intro st hst
    simp at hst
  · refine ⟨h.1, ?_⟩
    intro st hst
    simp at hst

theorem cursorInv_handleStartWriting (w : GenResult String) (s : AppModel)
    (h : cursorInv s) : cursorInv (handleStartWriting w s) := by
  unfold handleStartWriting
  split
  · split
    · exact ⟨Or.inr ⟨rfl, le_refl _⟩, h.2⟩
    · exact ⟨h.1, h.2⟩
  · exact h

/-- The invariant is inductive over every controller operation. -/
theorem cursorInv_step {s s' : AppModel} (h : cursorInv s) (hs : WStep s s') :
    cursorInv s' := by
  cases hs with
  | navigate direction s => exact cursorInv_handleNavigate direction s h
  | approve w f b s => exact cursorInv_handleApproveAndContinue w f b s h
  | revisePage r s => exact cursorInv_handleRevisePage r s h
  | saveDraft s => exact cursorInv_handleSaveDraft s h
  | loadDraft s => exact cursorInv_handleLoadDraft s h
  | startOver s => exact cursorInv_handleStartOver s
  | finalRevision o s => exact cursorInv_handleFinalRevision o s h
  | autoWrite f pg b s => exact cursorInv_handleStartAutomaticWriting f pg b s h
  | reviseOutline o s => exact cursorInv_handleReviseOutline o s h
  | outlineGeneration d o s => exact cursorInv_handleStartOutlineGeneration d o s h
  | startWriting w s => exact cursorInv_handleStartWriting w s h

theorem cursorInv_reachable {s0 s : AppModel} (h0 : cursorInv s0)
    (hr : WReachable s0 s) : cursorInv s := by
  induction hr with
  | refl => exact h0
  | step _ hs ih => exact cursorInv_step ih hs

/-- `navigate('next')` is dropped by the clamp when the view cursor equals
the write cursor. -/
theorem handleNavigate_next_noop (s : AppModel)
    (h1 : s.viewedChapterIndex = s.currentChapterIndex)
    (h2 : s.viewedPageIndex = s.currentPageIndex) :
    handleNavigate .next s = s := by
  unfold handleNavigate
  split
  · rfl
  · rename_i details _
    rw [if_pos]
    unfold navTarget
    by_cases hin : (s.viewedPageIndex : Int) + 1 ≥ (details.numPagesPerChapter : Int)
    · rw [if_pos hin]
      left
      simp only
      omega
    · rw [if_neg hin]
      right; left
      constructor
      · simp only
        omega
      · simp only
        omega

/-- `navigate('prev')` is dropped by the chapter-underflow guard at (0,0). -/
theorem handleNavigate_prev_noop (s : AppModel)
    (h1 : s.viewedChapterIndex = 0) (h2 : s.viewedPageIndex = 0) :
    handleNavigate .prev s = s := by
  unfold handleNavigate
  split
  · rfl
  · rename_i details _
    rw [if_pos]
    unfold navTarget
    rw [if_pos (by omega : (s.viewedPageIndex : Int) - 1 < 0)]
    right; right
    simp only
    omega

/-! ## Claim theorems -/

/-- C3: in every state reachable by controller operations from the start of
the Writing phase (view cursor = write cursor, empty Draft Store slot), the
view cursor is ≤ the write cursor in chapter-major/page-minor order;
`navigate('next')` is a no-op when the cursors are equal and
`navigate('prev')` is a no-op at (0,0). -/
theorem writing_cursor_invariant (s0 s : AppModel)
    (hstart : s0.viewedChapterIndex = s0.currentChapterIndex ∧
      s0.viewedPageIndex = s0.currentPageIndex ∧ s0.draft = none)
    (hreach : WReachable s0 s) :
    viewLeWrite s ∧
    (s.viewedChapterIndex = s.currentChapterIndex ∧
        s.viewedPageIndex = s.currentPageIndex →
      handleNavigate .next s = s) ∧
    (s.viewedChapterIndex = 0 ∧ s.viewedPageIndex = 0 →
      handleNavigate .prev s = s) := by
  have h0 : cursorInv s0 := by
    refine ⟨Or.inr ⟨hstart.1, le_of_eq hstart.2.1⟩, ?_⟩
    intro st hst
    rw [hstart.2.2] at hst
    cases hst
  have hinv := cursorInv_reachable h0 hreach
  exact ⟨hinv.1, fun h => handleNavigate_next_noop s h.1 h.2,
    fun h => handleNavigate_prev_noop s h.1 h.2⟩

/-- Witness for C3 at the concrete Writing-start state `baseModel`. -/
theorem writing_cursor_invariant_witness :
    viewLeWrite baseModel ∧
    (baseModel.viewedChapterIndex = baseModel.currentChapterIndex ∧
        baseModel.viewedPageIndex = baseModel.currentPageIndex →
      handleNavigate .next baseModel = baseModel) ∧
    (baseModel.viewedChapterIndex = 0 ∧ baseModel.viewedPageIndex = 0 →
      handleNavigate .prev baseModel = baseModel) :=
  writing_cursor_invariant baseModel baseModel ⟨rfl, rfl, rfl⟩ WReachable.refl

/-- C10: `handleSaveDraft` is a no-op (nothing written to the Draft Store,
no state change at all) whenever `bookDetails` or `bookOutline` is null —
in particular throughout the Setup phase, for both the manual save button
and the periodic auto-save timer, which both invoke this handler. -/
theorem saveDraft_requires_details_and_outline (s : AppModel)
    (h : s.bookDetails = none ∨ s.bookOutline = none) :
    handleSaveDraft s = s := by
  unfold handleSaveDraft
  split
  · rename_i details outline hd ho
    rcases h with h | h <;> simp_all
  · rfl

/-- Witness for C10 at the concrete Setup-phase state. -/
theorem saveDraft_requires_details_and_outline_witness :
    handleSaveDraft setupModel = setupModel :=
  saveDraft_requires_details_and_outline setupModel (Or.inl rfl)

/-- C6 counterexample: with a previously persisted draft in the store, a
FAILING `generateOutline` call still leaves the Draft Store empty, because
`handleStartOutlineGeneration` clears the slot (line 528, "Starting fresh")
before awaiting the generator. -/
theorem outlineGeneration_draft_cleared_cex :
    setupModel.draft = some snap0 ∧
    (handleStartOutlineGeneration d22 (.err "service unavailable") setupModel).draft =
      none := by
  exact ⟨rfl, rfl⟩

/-- C6 (amended): on `generateOutline` failure the workflow stays in its
phase with the error surfaced and all book state — details, outline,
content, matter, the page buffer and both cursor pairs — unchanged, but the
Draft Store slot has been cleared unconditionally before the call, so a
prior draft is lost even on failure. -/
theorem outlineGeneration_failure_semantics (details : BookDetails) (msg : String)
    (s : AppModel) :
    (handleStartOutlineGeneration details (.err msg) s).appState = s.appState ∧
    (handleStartOutlineGeneration details (.err msg) s).bookDetails = s.bookDetails ∧
    (handleStartOutlineGeneration details (.err msg) s).bookOutline = s.bookOutline ∧
    (handleStartOutlineGeneration details (.err msg) s).bookContent = s.bookContent ∧
    (handleStartOutlineGeneration details (.err msg) s).bookMatter = s.bookMatter ∧
    (handleStartOutlineGeneration details (.err msg) s).currentPageContent =
      s.currentPageContent ∧
    (handleStartOutlineGeneration details (.err msg) s).currentChapterIndex =
      s.currentChapterIndex ∧
    (handleStartOutlineGeneration details (.err msg) s).currentPageIndex =
      s.currentPageIndex ∧
    (handleStartOutlineGeneration details (.err msg) s).viewedChapterIndex =
      s.viewedChapterIndex ∧
    (handleStartOutlineGeneration details (.err msg) s).viewedPageIndex =
      s.viewedPageIndex ∧
    (handleStartOutlineGeneration details (.err msg) s).error = some msg ∧
    (handleStartOutlineGeneration details (.err msg) s).draft = none :=
  ⟨rfl, rfl, rfl, rfl, rfl, rfl, rfl, rfl, rfl, rfl, rfl, rfl⟩

/-- C5 counterexample: a parseable generator response with one chapter is
returned as a SUCCESS by `generateOutline` for a 2-chapter configuration —
the service performs no chapter-count validation. -/
theorem generateOutline_chapter_count_cex :
    generateOutline d22 (some o1) = .ok o1 ∧
    o1.chapters.length ≠ d22.numChapters := by
  exact ⟨rfl, by decide⟩

/-- C5 (amended): `generateOutline` and `reviseOutline` return the parsed
generator response verbatim; a successful result's chapter sequence is
whatever the response contained — the length equals `numChapters` only if
the generator honoured the prompt, which the code does not enforce. -/
theorem outline_passthrough (details : BookDetails) (resp : Option BookOutline)
    (o : BookOutline) :
    (generateOutline details resp = .ok o → resp = some o) ∧
    (∀ (orig : BookOutline) (feedback : String),
      reviseOutline details orig feedback resp = .ok o → resp = some o) := by
  constructor
  · intro h
    cases resp with
    | none => simp [generateOutline] at h
    | some a =>
        simp only [generateOutline] at h
        injection h with h
        rw [h]
  · intro orig feedback h
    cases resp with
    | none => simp [reviseOutline] at h
    | some a =>
        simp only [reviseOutline] at h
        injection h with h
        rw [h]

/-- Witness for C5's amended theorem: both service calls, at a concrete
parsed response, are covered with their hypotheses discharged. -/
theorem outline_passthrough_witness :
    (some o1 = some o1) ∧ (some o22 = some o22) :=
  ⟨(outline_passthrough d22 (some o1) o1).1 rfl,
   (outline_passthrough d22 (some o22) o22).2 o1 "merge the last two chapters" rfl⟩

/-- C4: a snapshot written by `handleSaveDraft` (which requires details and
outline present), loaded into any session, restores every saved field —
phase, details, outline, content, matter, page buffer, and both cursor
pairs; and a stored snapshot whose view-cursor fields are absent is loaded
with the view cursor defaulted to the write cursor. -/
theorem saveDraft_loadDraft_roundtrip (s t : AppModel) (details : BookDetails)
    (outline : BookOutline) (hd : s.bookDetails = some details)
    (ho : s.bookOutline = some outline) :
    ((handleLoadDraft { t with draft := (handleSaveDraft s).draft }).appState =
        s.appState ∧
      (handleLoadDraft { t with draft := (handleSaveDraft s).draft }).bookDetails =
        s.bookDetails ∧
      (handleLoadDraft { t with draft := (handleSaveDraft s).draft }).bookOutline =
        s.bookOutline ∧
      (handleLoadDraft { t with draft := (handleSaveDraft s).draft }).bookContent =
        s.bookContent ∧
      (handleLoadDraft { t with draft := (handleSaveDraft s).draft }).bookMatter =
        s.bookMatter ∧
      (handleLoadDraft { t with draft := (handleSaveDraft s).draft }).currentPageContent =
        s.currentPageContent ∧
      (handleLoadDraft { t with draft := (handleSaveDraft s).draft }).currentChapterIndex =
        s.currentChapterIndex ∧
      (handleLoadDraft { t with draft := (handleSaveDraft s).draft }).currentPageIndex =
        s.currentPageIndex ∧
      (handleLoadDraft { t with draft := (handleSaveDraft s).draft }).viewedChapterIndex =
        s.viewedChapterIndex ∧
      (handleLoadDraft { t with draft := (handleSaveDraft s).draft }).viewedPageIndex =
        s.viewedPageIndex) ∧
    (∀ st : SavedState, st.viewedChapterIndex = none → st.viewedPageIndex = none →
      (handleLoadDraft { t with draft := some st }).viewedChapterIndex =
          st.currentChapterIndex ∧
        (handleLoadDraft { t with draft := some st }).viewedPageIndex =
          st.currentPageIndex) := by
  constructor
  · have hsave : (handleSaveDraft s).draft = some (snapshotOf s details outline) := by
      simp [handleSaveDraft, hd, ho]
    rw [hsave]
    unfold handleLoadDraft
    exact ⟨rfl, hd.symm, ho.symm, rfl, rfl, rfl, rfl, rfl, rfl, rfl⟩
  · intro st h1 h2
    unfold handleLoadDraft
    constructor
    · show st.viewedChapterIndex.getD st.currentChapterIndex = st.currentChapterIndex
      rw [h1]
      rfl
    · show st.viewedPageIndex.getD st.currentPageIndex = st.currentPageIndex
      rw [h2]
      rfl

/-- Witness for C4 at concrete states: saving `behindModel` and loading into
the unrelated `setupModel` restores every field; absent view-cursor fields
default to the write cursor. -/
theorem saveDraft_loadDraft_roundtrip_witness :
    ((handleLoadDraft { setupModel with draft := (handleSaveDraft behindModel).draft }).appState =
        behindModel.appState ∧
      (handleLoadDraft { setupModel with draft := (handleSaveDraft behindModel).draft }).bookDetails =
        behindModel.bookDetails ∧
      (handleLoadDraft { setupModel with draft := (handleSaveDraft behindModel).draft }).bookOutline =
        behindModel.bookOutline ∧
      (handleLoadDraft { setupModel with draft := (handleSaveDraft behindModel).draft }).bookContent =
        behindModel.bookContent ∧
      (handleLoadDraft { setupModel with draft := (handleSaveDraft behindModel).draft }).bookMatter =
        behindModel.bookMatter ∧
      (handleLoadDraft { setupModel with draft := (handleSaveDraft behindModel).draft }).currentPageContent =
        behindModel.currentPageContent ∧
      (handleLoadDraft { setupModel with draft := (handleSaveDraft behindModel).draft }).currentChapterIndex =
        behindModel.currentChapterIndex ∧
      (handleLoadDraft { setupModel with draft := (handleSaveDraft behindModel).draft }).currentPageIndex =
        behindModel.currentPageIndex ∧
      (handleLoadDraft { setupModel with draft := (handleSaveDraft behindModel).draft }).viewedChapterIndex =
        behindModel.viewedChapterIndex ∧
      (handleLoadDraft { setupModel with draft := (handleSaveDraft behindModel).draft }).viewedPageIndex =
        behindModel.viewedPageIndex) ∧
    (∀ st : SavedState, st.viewedChapterIndex = none → st.viewedPageIndex = none →
      (handleLoadDraft { setupModel with draft := some st }).viewedChapterIndex =
          st.currentChapterIndex ∧
        (handleLoadDraft { setupModel with draft := some st }).viewedPageIndex =
          st.currentPageIndex) :=
  saveDraft_loadDraft_roundtrip behindModel setupModel d22 o22 rfl rfl

/-- C1 counterexample: at `baseModel` (Writing phase, view = write = (0,0),
grid empty, page (0,0) buffered), a failing `writePage` call during
`handleApproveAndContinue` leaves the write cursor at (0,0) — so the
"commits and advances" disjunct fails — while `bookContent` HAS changed
(the buffered page was committed before the generator call), so the
"completely unchanged" disjunct fails too. -/
theorem approveAndContinue_atomicity_cex :
    ¬ ((((handleApproveAndContinue (.err "network error") (.err "nf") (.err "nb")
              baseModel).bookContent =
            commitPage baseModel.bookContent baseModel.currentChapterIndex
              baseModel.currentPageIndex baseModel.currentPageContent ∧
          (handleApproveAndContinue (.err "network error") (.err "nf") (.err "nb")
              baseModel).currentChapterIndex = 0 ∧
          (handleApproveAndContinue (.err "network error") (.err "nf") (.err "nb")
              baseModel).currentPageIndex = 1)) ∨
        ((handleApproveAndContinue (.err "network error") (.err "nf") (.err "nb")
              baseModel).bookContent = baseModel.bookContent ∧
          (handleApproveAndContinue (.err "network error") (.err "nf") (.err "nb")
              baseModel).currentChapterIndex = 0 ∧
          (handleApproveAndContinue (.err "network error") (.err "nf") (.err "nb")
              baseModel).currentPageIndex = 0)) := by
  decide

/-- C1 (amended): for a Writing-phase state with view = write and the write
cursor not at the last page of the last chapter, `handleApproveAndContinue`
unconditionally sets BookContent to the pre-call grid with the buffer
written at the write-cursor position (so exactly one page is committed: the
committed position reads back as the buffer and every other grid position is
unchanged); on `writePage` success the write cursor advances by exactly one
position (chapter-major/page-minor) and the new page is buffered; on
`writePage` failure the write cursor, the view cursor and the page buffer
are unchanged and the error is surfaced, while the commit is retained
rather than rolled back — after a failure BookContent is still the pre-call
grid with the buffer written at the write cursor (which differs from the
pre-call value exactly when that position did not already hold the buffer
text). -/
theorem approveAndContinue_commit_semantics (w : GenResult String)
    (f : GenResult FrontMatterData) (b : GenResult BackMatterData) (s : AppModel)
    (details : BookDetails) (outline : BookOutline)
    (hphase : s.appState = .WRITING)
    (hd : s.bookDetails = some details) (ho : s.bookOutline = some outline)
    (hview : s.viewedChapterIndex = s.currentChapterIndex ∧
      s.viewedPageIndex = s.currentPageIndex)
    (hnotlast : (nextPos details s.currentChapterIndex s.currentPageIndex).1 <
      details.numChapters) :
    (handleApproveAndContinue w f b s).bookContent =
      commitPage s.bookContent s.currentChapterIndex s.currentPageIndex
        s.currentPageContent ∧
    getPage (handleApproveAndContinue w f b s).bookContent s.currentChapterIndex
        s.currentPageIndex = s.currentPageContent ∧
    (∀ c p, ¬(c = s.currentChapterIndex ∧ p = s.currentPageIndex) →
      getPage (handleApproveAndContinue w f b s).bookContent c p =
        getPage s.bookContent c p) ∧
    (∀ text, w = .ok text →
      (handleApproveAndContinue w f b s).currentChapterIndex =
          (nextPos details s.currentChapterIndex s.currentPageIndex).1 ∧
        (handleApproveAndContinue w f b s).currentPageIndex =
          (nextPos details s.currentChapterIndex s.currentPageIndex).2 ∧
        (handleApproveAndContinue w f b s).currentPageContent = text) ∧
    (∀ msg, w = .err msg →
      (handleApproveAndContinue w f b s).currentChapterIndex =
          s.currentChapterIndex ∧
        (handleApproveAndContinue w f b s).currentPageIndex = s.currentPageIndex ∧
        (handleApproveAndContinue w f b s).viewedChapterIndex =
          s.viewedChapterIndex ∧
        (handleApproveAndContinue w f b s).viewedPageIndex = s.viewedPageIndex ∧
        (handleApproveAndContinue w f b s).currentPageContent =
          s.currentPageContent ∧
        (handleApproveAndContinue w f b s).error = some msg) := by
  have hcond : ¬ ((nextPos details s.currentChapterIndex s.currentPageIndex).1 ≥
      details.numChapters) := by omega
  simp only [handleApproveAndContinue, hd, ho]
  rw [if_neg hcond]
  cases w with
  | ok text =>
      refine ⟨rfl, ?_, ?_, ?_, ?_⟩
      · exact getPage_commitPage_self _ _ _ _
      · intro c p hcp
        exact getPage_commitPage_ne _ _ _ _ _ _ hcp
      · intro text2 h
        injection h with h
        subst h
        exact ⟨rfl, rfl, rfl⟩
      · intro msg h
        simp at h
  | err msg =>
      refine ⟨rfl, ?_, ?_, ?_, ?_⟩
      · exact getPage_commitPage_self _ _ _ _
      · intro c p hcp
        exact getPage_commitPage_ne _ _ _ _ _ _ hcp
      · intro text h
        simp at h
      · intro msg2 h
        injection h with h
        subst h
        exact ⟨rfl, rfl, rfl, rfl, rfl, rfl⟩

/-- Witness for C1's amended theorem at `baseModel` with a successful
`writePage` call. -/
theorem approveAndContinue_commit_semantics_witness :
    (handleApproveAndContinue (.ok "p01") (.err "nf") (.err "nb")
        baseModel).bookContent =
      commitPage baseModel.bookContent baseModel.currentChapterIndex
        baseModel.currentPageIndex baseModel.currentPageContent ∧
    getPage (handleApproveAndContinue (.ok "p01") (.err "nf") (.err "nb")
        baseModel).bookContent baseModel.currentChapterIndex
        baseModel.currentPageIndex = baseModel.currentPageContent ∧
    (∀ c p, ¬(c = baseModel.currentChapterIndex ∧ p = baseModel.currentPageIndex) →
      getPage (handleApproveAndContinue (.ok "p01") (.err "nf") (.err "nb")
          baseModel).bookContent c p = getPage baseModel.bookContent c p) ∧
    (∀ text, (GenResult.ok "p01" : GenResult String) = .ok text →
      (handleApproveAndContinue (.ok "p01") (.err "nf") (.err "nb")
            baseModel).currentChapterIndex =
          (nextPos d22 baseModel.currentChapterIndex baseModel.currentPageIndex).1 ∧
        (handleApproveAndContinue (.ok "p01") (.err "nf") (.err "nb")
            baseModel).currentPageIndex =
          (nextPos d22 baseModel.currentChapterIndex baseModel.currentPageIndex).2 ∧
        (handleApproveAndContinue (.ok "p01") (.err "nf") (.err "nb")
            baseModel).currentPageContent = text) ∧
    (∀ msg, (GenResult.ok "p01" : GenResult String) = .err msg →
      (handleApproveAndContinue (.ok "p01") (.err "nf") (.err "nb")
            baseModel).currentChapterIndex = baseModel.currentChapterIndex ∧
        (handleApproveAndContinue (.ok "p01") (.err "nf") (.err "nb")
            baseModel).currentPageIndex = baseModel.currentPageIndex ∧
        (handleApproveAndContinue (.ok "p01") (.err "nf") (.err "nb")
            baseModel).viewedChapterIndex = baseModel.viewedChapterIndex ∧
        (handleApproveAndContinue (.ok "p01") (.err "nf") (.err "nb")
            baseModel).viewedPageIndex = baseModel.viewedPageIndex ∧
        (handleApproveAndContinue (.ok "p01") (.err "nf") (.err "nb")
            baseModel).currentPageContent = baseModel.currentPageContent ∧
        (handleApproveAndContinue (.ok "p01") (.err "nf") (.err "nb")
            baseModel).error = some msg) :=
  approveAndContinue_commit_semantics (.ok "p01") (.err "nf") (.err "nb") baseModel
    d22 o22 rfl rfl rfl ⟨rfl, rfl⟩ (by decide)

/-- C2 counterexample: at `behindModel` (view (0,0) strictly behind write
(0,1)), invoking `handleApproveAndContinue` is NOT rejected: the buffer is
committed at the write cursor, both cursors move and the buffer is replaced
— refuting "rejects the call ... leaves BookContent, both cursors, and the
page buffer unchanged". -/
theorem approveAndContinue_guard_cex :
    ¬ ((handleApproveAndContinue (.ok "p02") (.err "nf") (.err "nb")
          behindModel).bookContent = behindModel.bookContent ∧
        (handleApproveAndContinue (.ok "p02") (.err "nf") (.err "nb")
          behindModel).currentChapterIndex = behindModel.currentChapterIndex ∧
        (handleApproveAndContinue (.ok "p02") (.err "nf") (.err "nb")
          behindModel).currentPageIndex = behindModel.currentPageIndex ∧
        (handleApproveAndContinue (.ok "p02") (.err "nf") (.err "nb")
          behindModel).viewedChapterIndex = behindModel.viewedChapterIndex ∧
        (handleApproveAndContinue (.ok "p02") (.err "nf") (.err "nb")
          behindModel).viewedPageIndex = behindModel.viewedPageIndex ∧
        (handleApproveAndContinue (.ok "p02") (.err "nf") (.err "nb")
          behindModel).currentPageContent = behindModel.currentPageContent) := by
  decide

/-- C2 (amended): the controller has NO defensive view-cursor guard — the
rejection lives only in the UI (`WritingView` disables the approve button
unless the viewed page is the latest).  Invoked in a Writing-phase state
with the view cursor strictly behind the write cursor, the handler behaves
exactly as at the latest page: it commits the current buffer (which then
holds the VIEWED page's text) into BookContent at the WRITE cursor, and on
`writePage` success advances both cursors to the next position. -/
theorem approveAndContinue_no_view_guard (w : GenResult String)
    (f : GenResult FrontMatterData) (b : GenResult BackMatterData) (s : AppModel)
    (details : BookDetails) (outline : BookOutline)
    (hphase : s.appState = .WRITING)
    (hd : s.bookDetails = some details) (ho : s.bookOutline = some outline)
    (hbehind : viewBehindWrite s)
    (hnotlast : (nextPos details s.currentChapterIndex s.currentPageIndex).1 <
      details.numChapters) :
    getPage (handleApproveAndContinue w f b s).bookContent s.currentChapterIndex
        s.currentPageIndex = s.currentPageContent ∧
    (∀ text, w = .ok text →
      (handleApproveAndContinue w f b s).currentChapterIndex =
          (nextPos details s.currentChapterIndex s.currentPageIndex).1 ∧
        (handleApproveAndContinue w f b s).currentPageIndex =
          (nextPos details s.currentChapterIndex s.currentPageIndex).2 ∧
        (handleApproveAndContinue w f b s).viewedChapterIndex =
          (nextPos details s.currentChapterIndex s.currentPageIndex).1 ∧
        (handleApproveAndContinue w f b s).viewedPageIndex =
          (nextPos details s.currentChapterIndex s.currentPageIndex).2 ∧
        (handleApproveAndContinue w f b s).currentPageContent = text) := by
  have hcond : ¬ ((nextPos details s.currentChapterIndex s.currentPageIndex).1 ≥
      details.numChapters) := by omega
  simp only [handleApproveAndContinue, hd, ho]
  rw [if_neg hcond]
  cases w with
  | ok text =>
      refine ⟨getPage_commitPage_self _ _ _ _, ?_⟩
      intro text2 h
      injection h with h
      subst h
      exact ⟨rfl, rfl, rfl, rfl, rfl⟩
  | err msg =>
      refine ⟨getPage_commitPage_self _ _ _ _, ?_⟩
      intro text h
      simp at h

/-- Witness for C2's amended theorem at `behindModel`. -/
theorem approveAndContinue_no_view_guard_witness :
    getPage (handleApproveAndContinue (.ok "p02") (.err "nf") (.err "nb")
        behindModel).bookContent behindModel.currentChapterIndex
        behindModel.currentPageIndex = behindModel.currentPageContent ∧
    (∀ text, (GenResult.ok "p02" : GenResult String) = .ok text →
      (handleApproveAndContinue (.ok "p02") (.err "nf") (.err "nb")
            behindModel).currentChapterIndex =
          (nextPos d22 behindModel.currentChapterIndex behindModel.currentPageIndex).1 ∧
        (handleApproveAndContinue (.ok "p02") (.err "nf") (.err "nb")
            behindModel).currentPageIndex =
          (nextPos d22 behindModel.currentChapterIndex behindModel.currentPageIndex).2 ∧
        (handleApproveAndContinue (.ok "p02") (.err "nf") (.err "nb")
            behindModel).viewedChapterIndex =
          (nextPos d22 behindModel.currentChapterIndex behindModel.currentPageIndex).1 ∧
        (handleApproveAndContinue (.ok "p02") (.err "nf") (.err "nb")
            behindModel).viewedPageIndex =
          (nextPos d22 behindModel.currentChapterIndex behindModel.currentPageIndex).2 ∧
        (handleApproveAndContinue (.ok "p02") (.err "nf") (.err "nb")
            behindModel).currentPageContent = text) :=
  approveAndContinue_no_view_guard (.ok "p02") (.err "nf") (.err "nb") behindModel
    d22 o22 rfl rfl rfl (Or.inr ⟨rfl, by decide⟩) (by decide)

theorem handleSaveDraft_appState (s : AppModel) :
    (handleSaveDraft s).appState = s.appState := by
  unfold handleSaveDraft
  split <;> rfl

theorem handleSaveDraft_bookMatter (s : AppModel) :
    (handleSaveDraft s).bookMatter = s.bookMatter := by
  unfold handleSaveDraft
  split <;> rfl

theorem handleSaveDraft_currentPageContent (s : AppModel) :
    (handleSaveDraft s).currentPageContent = s.currentPageContent := by
  unfold handleSaveDraft
  split <;> rfl

/-- C7: a successful `handleApproveAndContinue` at the last page of the last
chapter makes the phase Final, sets BookMatter to the merge of the front-
and back-matter responses (all 8 fields populated), leaves the page buffer
alone (no further page is buffered), and the result does not depend on the
`writePage` outcome at all — `writePage` is not called on this path. -/
theorem approveAndContinue_finalize (w : GenResult String) (f : FrontMatterData)
    (b : BackMatterData) (s : AppModel) (details : BookDetails)
    (outline : BookOutline) (hphase : s.appState = .WRITING)
    (hd : s.bookDetails = some details) (ho : s.bookOutline = some outline)
    (hnc : 1 ≤ details.numChapters) (hppc : 1 ≤ details.numPagesPerChapter)
    (hc : s.currentChapterIndex = details.numChapters - 1)
    (hp : s.currentPageIndex = details.numPagesPerChapter - 1) :
    (handleApproveAndContinue w (.ok f) (.ok b) s).appState = .FINAL ∧
    (handleApproveAndContinue w (.ok f) (.ok b) s).bookMatter =
      some (mergeMatter f b) ∧
    (handleApproveAndContinue w (.ok f) (.ok b) s).currentPageContent =
      s.currentPageContent ∧
    (∀ w', handleApproveAndContinue w' (.ok f) (.ok b) s =
      handleApproveAndContinue w (.ok f) (.ok b) s) := by
  have hp1 : s.currentPageIndex + 1 ≥ details.numPagesPerChapter := by omega
  have hnext : (nextPos details s.currentChapterIndex s.currentPageIndex).1 =
      s.currentChapterIndex + 1 := by
    unfold nextPos
    rw [if_pos hp1]
  have hfin : (nextPos details s.currentChapterIndex s.currentPageIndex).1 ≥
      details.numChapters := by
    rw [hnext]
    omega
  refine ⟨?_, ?_, ?_, ?_⟩
  · simp only [handleApproveAndContinue, hd, ho]
    rw [if_pos hfin, handleSaveDraft_appState]
  · simp only [handleApproveAndContinue, hd, ho]
    rw [if_pos hfin, handleSaveDraft_bookMatter]
  · simp only [handleApproveAndContinue, hd, ho]
    rw [if_pos hfin, handleSaveDraft_currentPageContent]
  · intro w'
    simp only [handleApproveAndContinue, hd, ho]
    rw [if_pos hfin, if_pos hfin]

/-- Witness for C7 at `lastPageModel` (write cursor (1,1) under the 2×2
configuration). -/
theorem approveAndContinue_finalize_witness :
    (handleApproveAndContinue (.err "unused") (.ok fm0) (.ok bm0)
        lastPageModel).appState = .FINAL ∧
    (handleApproveAndContinue (.err "unused") (.ok fm0) (.ok bm0)
        lastPageModel).bookMatter = some (mergeMatter fm0 bm0) ∧
    (handleApproveAndContinue (.err "unused") (.ok fm0) (.ok bm0)
        lastPageModel).currentPageContent = lastPageModel.currentPageContent ∧
    (∀ w', handleApproveAndContinue w' (.ok fm0) (.ok bm0) lastPageModel =
      handleApproveAndContinue (.err "unused") (.ok fm0) (.ok bm0) lastPageModel) :=
  approveAndContinue_finalize (.err "unused") fm0 bm0 lastPageModel d22 o22
    rfl rfl rfl (by decide) (by decide) (by decide) (by decide)

/-- C8 counterexample: under the 1×1 configuration with front matter and the
single page succeeding but the back-matter call failing, the generated page
is NOT discarded — `setBookContent` (line 599) runs before the back-matter
await, so BookContent keeps the full page grid after the failure. -/
theorem autoWrite_backmatter_cex :
    ¬ ((handleStartAutomaticWriting (.ok fm0) (fun _ _ => .ok "page")
          (.err "back matter failed") outlineModel1).bookContent =
        outlineModel1.bookContent ∧
        (handleStartAutomaticWriting (.ok fm0) (fun _ _ => .ok "page")
          (.err "back matter failed") outlineModel1).bookMatter =
          outlineModel1.bookMatter ∧
        (handleStartAutomaticWriting (.ok fm0) (fun _ _ => .ok "page")
          (.err "back matter failed") outlineModel1).appState =
          outlineModel1.appState ∧
        (handleStartAutomaticWriting (.ok fm0) (fun _ _ => .ok "page")
          (.err "back matter failed") outlineModel1).draft =
          outlineModel1.draft) := by
  decide

/-- C8 (amended): `handleStartAutomaticWriting` writes nothing to the Draft
Store until the whole sequence (front matter, all pages in chapter-major/
page-minor order, back matter) has completed — the snapshot save happens
only in the all-success case.  A failure of the front-matter call or of any
page call leaves BookContent, BookMatter, the phase, and the Draft Store
unchanged (the pages generated so far, held in the local accumulator, are
discarded).  A failure of the BACK-matter call, however, happens after
`setBookContent`: BookContent keeps the complete page grid, while
BookMatter, the phase, and the Draft Store remain unchanged. -/
theorem autoWrite_failure_semantics (front : GenResult FrontMatterData)
    (pg : Nat → Nat → GenResult String) (back : GenResult BackMatterData)
    (s : AppModel) (details : BookDetails) (outline : BookOutline)
    (hphase : s.appState = .OUTLINE)
    (hd : s.bookDetails = some details) (ho : s.bookOutline = some outline) :
    (∀ msg, front = .err msg →
      handleStartAutomaticWriting front pg back s =
        { s with error := some msg, isLoading := false }) ∧
    (∀ fr msg, front = .ok fr →
      autoWriteContent pg details.numChapters details.numPagesPerChapter = .err msg →
      handleStartAutomaticWriting front pg back s =
        { s with error := some msg, isLoading := false }) ∧
    (∀ fr grid msg, front = .ok fr →
      autoWriteContent pg details.numChapters details.numPagesPerChapter = .ok grid →
      back = .err msg →
      handleStartAutomaticWriting front pg back s =
        { s with bookContent := grid, error := some msg, isLoading := false }) ∧
    (∀ fr grid ba, front = .ok fr →
      autoWriteContent pg details.numChapters details.numPagesPerChapter = .ok grid →
      back = .ok ba →
      handleStartAutomaticWriting front pg back s =
        handleSaveDraft
          { s with
            bookContent := grid
            bookMatter := some (mergeMatter fr ba)
            appState := .FINAL
            error := none, isLoading := false }) := by
  refine ⟨?_, ?_, ?_, ?_⟩
  · intro msg hf
    subst hf
    simp only [handleStartAutomaticWriting, hd, ho]
  · intro fr msg hf hpages
    subst hf
    simp only [handleStartAutomaticWriting, hd, ho, hpages]
  · intro fr grid msg hf hpages hb
    subst hf
    subst hb
    simp only [handleStartAutomaticWriting, hd, ho, hpages]
  · intro fr grid ba hf hpages hb
    subst hf
    subst hb
    simp only [handleStartAutomaticWriting, hd, ho, hpages]

/-- Witness for C8's amended theorem under the concrete 1×1 configuration. -/
theorem autoWrite_failure_semantics_witness :
    (∀ msg, (GenResult.ok fm0 : GenResult FrontMatterData) = .err msg →
      handleStartAutomaticWriting (.ok fm0) (fun _ _ => .ok "page")
          (.err "back matter failed") outlineModel1 =
        { outlineModel1 with error := some msg, isLoading := false }) ∧
    (∀ fr msg, (GenResult.ok fm0 : GenResult FrontMatterData) = .ok fr →
      autoWriteContent (fun _ _ => .ok "page") d11.numChapters
          d11.numPagesPerChapter = .err msg →
      handleStartAutomaticWriting (.ok fm0) (fun _ _ => .ok "page")
          (.err "back matter failed") outlineModel1 =
        { outlineModel1 with error := some msg, isLoading := false }) ∧
    (∀ fr grid msg, (GenResult.ok fm0 : GenResult FrontMatterData) = .ok fr →
      autoWriteContent (fun _ _ => .ok "page") d11.numChapters
          d11.numPagesPerChapter = .ok grid →
      (GenResult.err "back matter failed" : GenResult BackMatterData) = .err msg →
      handleStartAutomaticWriting (.ok fm0) (fun _ _ => .ok "page")
          (.err "back matter failed") outlineModel1 =
        { outlineModel1 with
          bookContent := grid
          error := some msg
          isLoading := false }) ∧
    (∀ fr grid ba, (GenResult.ok fm0 : GenResult FrontMatterData) = .ok fr →
      autoWriteContent (fun _ _ => .ok "page") d11.numChapters
          d11.numPagesPerChapter = .ok grid →
      (GenResult.err "back matter failed" : GenResult BackMatterData) = .ok ba →
      handleStartAutomaticWriting (.ok fm0) (fun _ _ => .ok "page")
          (.err "back matter failed") outlineModel1 =
        handleSaveDraft
          { outlineModel1 with
            bookContent := grid
            bookMatter := some (mergeMatter fr ba)
            appState := .FINAL
            error := none, isLoading := false }) :=
  autoWrite_failure_semantics (.ok fm0) (fun _ _ => .ok "page")
    (.err "back matter failed") outlineModel1 d11 o1 rfl rfl rfl

/-- C9: in a Final-phase state, applying a `reviseFullBook` result whose
`revisedMatter` contains only the conclusion changes only that field of
BookMatter (the other seven keep their prior values) and leaves BookContent
alone; applying a single content triple with a valid chapter index rewrites
exactly that page, every other grid position and all of BookMatter
unchanged. -/
theorem finalRevision_frame (s : AppModel) (details : BookDetails)
    (outline : BookOutline) (matter : BookMatter)
    (hphase : s.appState = .FINAL)
    (hd : s.bookDetails = some details) (ho : s.bookOutline = some outline)
    (hm : s.bookMatter = some matter) :
    (∀ x, (handleFinalRevision (.ok (conclusionOnlyPatch x, [])) s).bookMatter =
        some { matter with conclusion := x } ∧
      (handleFinalRevision (.ok (conclusionOnlyPatch x, [])) s).bookContent =
        s.bookContent) ∧
    (∀ ci pi text, ci < s.bookContent.length →
      (handleFinalRevision (.ok (MatterPatch.empty, [⟨ci, pi, text⟩])) s).bookMatter =
          some matter ∧
        getPage (handleFinalRevision (.ok (MatterPatch.empty, [⟨ci, pi, text⟩]))
            s).bookContent ci pi = text ∧
        (∀ c p, ¬(c = ci ∧ p = pi) →
          getPage (handleFinalRevision (.ok (MatterPatch.empty, [⟨ci, pi, text⟩]))
              s).bookContent c p = getPage s.bookContent c p)) := by
  simp only [handleFinalRevision, hd, ho, hm]
  constructor
  · intro x
    exact ⟨rfl, rfl⟩
  · intro ci pi text hci
    refine ⟨rfl, ?_, ?_⟩
    · exact getPage_applyContentChange_self _ _ hci
    · intro c p hcp
      exact getPage_applyContentChange_ne _ _ _ _ hcp

/-- Witness for C9 at `finalModel` (Final phase, full 2×2 grid, matter
`m0`). -/
theorem finalRevision_frame_witness :
    (∀ x, (handleFinalRevision (.ok (conclusionOnlyPatch x, [])) finalModel).bookMatter =
        some { m0 with conclusion := x } ∧
      (handleFinalRevision (.ok (conclusionOnlyPatch x, [])) finalModel).bookContent =
        finalModel.bookContent) ∧
    (∀ ci pi text, ci < finalModel.bookContent.length →
      (handleFinalRevision (.ok (MatterPatch.empty, [⟨ci, pi, text⟩]))
            finalModel).bookMatter = some m0 ∧
        getPage (handleFinalRevision (.ok (MatterPatch.empty, [⟨ci, pi, text⟩]))
            finalModel).bookContent ci pi = text ∧
        (∀ c p, ¬(c = ci ∧ p = pi) →
          getPage (handleFinalRevision (.ok (MatterPatch.empty, [⟨ci, pi, text⟩]))
              finalModel).bookContent c p = getPage finalModel.bookContent c p)) :=
  finalRevision_frame finalModel d22 o22 m0 rfl rfl rfl rfl
